import Mathlib

/-!
Shallow embedding of `adversarial_robustness/jax/model_zoo.py` (WideResNet in
JAX/Haiku) and proofs about it.

Tensors are modelled as rational-valued arrays with explicit dimensions; the
framework primitives the file calls (`hk.Conv2D`, `hk.BatchNorm`, `hk.Linear`,
`jax.nn` activations, `jnp.mean`, `jnp.pad`) are modelled as executable Lean
functions.  Framework-owned parameters (convolution weights, batch-norm state,
linear weights/bias) are threaded in explicitly via parameter records, and the
per-call `**norm_kwargs` dictionary is an arbitrary type `Ctx`.
-/

/-- A 4-dimensional tensor (batch, height, width, channels) with rational
entries.  Entries are a total function on indices; values at indices outside
the recorded dimensions are junk and never inspected. -/
structure Tensor4 where
  n : ℕ
  h : ℕ
  w : ℕ
  c : ℕ
  data : ℕ → ℕ → ℕ → ℕ → ℚ

/-- A 2-dimensional tensor (batch, features). -/
structure Tensor2 where
  n : ℕ
  c : ℕ
  data : ℕ → ℕ → ℚ

/-- Reading a tensor entry at integer spatial coordinates, 0 outside the
spatial bounds (zero padding, as used by a padded convolution). -/
def Tensor4.getI (t : Tensor4) (b : ℕ) (i j : ℤ) (ch : ℕ) : ℚ :=
  if 0 ≤ i ∧ i < (t.h : ℤ) ∧ 0 ≤ j ∧ j < (t.w : ℤ) then t.data b i.toNat j.toNat ch else 0

/-- Pointwise sum of two tensors; dimensions are taken from the first operand,
mirroring `x += shortcut_x` (shapes agree in every use in the source). -/
def Tensor4.add (t u : Tensor4) : Tensor4 :=
  { t with data := fun b i j ch => t.data b i j ch + u.data b i j ch }

/-- Elementwise application of an activation function, as `jax.nn.relu` and
friends act on an array. -/
def actApply (f : ℚ → ℚ) (t : Tensor4) : Tensor4 :=
  { t with data := fun b i j ch => f (t.data b i j ch) }

/-- Model of `hk.Conv2D(output_channels, kernel_shape, stride, with_bias=False,
padding='SAME')`: the framework-created kernel weights are a field
(indexed kernel-row, kernel-col, in-channel, out-channel). -/
structure Conv2D where
  outChannels : ℕ
  kh : ℕ
  kw : ℕ
  stride : ℕ
  weights : ℕ → ℕ → ℕ → ℕ → ℚ

instance : Inhabited Conv2D :=
  ⟨{ outChannels := 0, kh := 0, kw := 0, stride := 1, weights := fun _ _ _ _ => 0 }⟩

/-- Applying a SAME-padded, bias-free 2-D convolution.  Output spatial size is
⌈in / stride⌉; total padding per spatial axis is
max((out−1)·stride + kernel − in, 0) (Nat subtraction clamps at 0), split with
the smaller half before, as in XLA SAME padding. -/
def Conv2D.apply (cv : Conv2D) (t : Tensor4) : Tensor4 :=
  let outH := (t.h + cv.stride - 1) / cv.stride
  let outW := (t.w + cv.stride - 1) / cv.stride
  let padTop := ((outH - 1) * cv.stride + cv.kh - t.h) / 2
  let padLeft := ((outW - 1) * cv.stride + cv.kw - t.w) / 2
  { n := t.n
    h := outH
    w := outW
    c := cv.outChannels
    data := fun b i j co =>
      ∑ di ∈ Finset.range cv.kh, ∑ dj ∈ Finset.range cv.kw, ∑ ci ∈ Finset.range t.c,
        cv.weights di dj ci co *
          t.getI b ((i * cv.stride + di : ℕ) - (padTop : ℤ))
            ((j * cv.stride + dj : ℕ) - (padLeft : ℤ)) ci }

/-- Model of `hk.BatchNorm`: an arbitrary shape-preserving transformation
whose entries may depend on the per-call `**norm_kwargs` context, on the whole
input array (batch statistics), and on the index; this covers train and eval
behaviour, the running-statistics state being owned by the framework. -/
structure BatchNorm (Ctx : Type) where
  normfn : Ctx → Tensor4 → ℕ → ℕ → ℕ → ℕ → ℚ

/-- Applying a batch-norm module: dimensions are unchanged. -/
def BatchNorm.apply {Ctx : Type} (bn : BatchNorm Ctx) (ctx : Ctx) (t : Tensor4) : Tensor4 :=
  { t with data := bn.normfn ctx t }

/-- Model of `jnp.mean(net, axis=[1, 2])`: the mean over the two spatial axes,
one value per batch element and channel. -/
def Tensor4.spatialMean (t : Tensor4) : Tensor2 :=
  { n := t.n
    c := t.c
    data := fun b ch =>
      (∑ i ∈ Finset.range t.h, ∑ j ∈ Finset.range t.w, t.data b i j ch) / ((t.h * t.w : ℕ) : ℚ) }

/-- Model of `hk.Linear(num_classes)` with framework-created weights and bias. -/
structure Linear where
  outSize : ℕ
  weights : ℕ → ℕ → ℚ
  bias : ℕ → ℚ

/-- Applying a linear layer to a (batch, features) tensor. -/
def Linear.apply (l : Linear) (t : Tensor2) : Tensor2 :=
  { n := t.n
    c := l.outSize
    data := fun b o => (∑ i ∈ Finset.range t.c, t.data b i * l.weights i o) + l.bias o }

/-- Framework-created parameters of one `_WideResNetBlock`: the batch-norm
state of `batchnorm_i`, the kernel weights of `conv_i`, and the kernel weights
of the `shortcut` convolution (unused when no projection shortcut is built). -/
structure BlockParams (Ctx : Type) where
  bn : ℕ → BatchNorm Ctx
  convW : ℕ → ℕ → ℕ → ℕ → ℕ → ℚ
  shortcutW : ℕ → ℕ → ℕ → ℕ → ℚ

/-- Model of a constructed `_WideResNetBlock`: the module lists built by
`__init__` plus the optional projection shortcut. -/
structure WideResNetBlock (Ctx : Type) where
  activation : ℚ → ℚ
  bns : List (BatchNorm Ctx)
  convs : List Conv2D
  shortcut : Option Conv2D

/-- Model of `_WideResNetBlock.__init__` (model_zoo.py lines 33-66): for i in
range(num_bottleneck_layers + 1) = range(2), stride s = stride if i == 0 else
1, append `batchnorm_i` and a 3×3 SAME stride-s bias-free `conv_i`; build a
1×1 stride-`stride` bias-free `shortcut` convolution iff projection_shortcut. -/
def WideResNetBlock.build {Ctx : Type} (p : BlockParams Ctx) (num_filters stride : ℕ)
    (projection_shortcut : Bool) (activation : ℚ → ℚ) : WideResNetBlock Ctx :=
  let num_bottleneck_layers := 1
  { activation := activation
    bns := (List.range (num_bottleneck_layers + 1)).map (fun i => p.bn i)
    convs := (List.range (num_bottleneck_layers + 1)).map (fun i =>
      { outChannels := num_filters
        kh := 3
        kw := 3
        stride := if i = 0 then stride else 1
        weights := p.convW i })
    shortcut :=
      if projection_shortcut then
        some { outChannels := num_filters
               kh := 1
               kw := 1
               stride := stride
               weights := p.shortcutW }
      else none }

/-- Model of `_WideResNetBlock.__call__` (model_zoo.py lines 68-82): fold over
`enumerate(zip(self._bn_modules, self._conv_modules))` carrying the pair
(x, orig_x); each step applies batch-norm with the caller's norm context, the
activation, captures orig_x := x when a shortcut exists and i == 0, then
applies the convolution; finally add the (projected) shortcut tensor. -/
def WideResNetBlock.call {Ctx : Type} (blk : WideResNetBlock Ctx) (ctx : Ctx)
    (inputs : Tensor4) : Tensor4 :=
  let step := fun (acc : Tensor4 × Tensor4) (ibc : ℕ × (BatchNorm Ctx × Conv2D)) =>
    let x := ibc.2.1.apply ctx acc.1
    let x := actApply blk.activation x
    let origX := if blk.shortcut.isSome ∧ ibc.1 = 0 then x else acc.2
    (ibc.2.2.apply x, origX)
  let r := ((blk.bns.zip blk.convs).enum).foldl step (inputs, inputs)
  match blk.shortcut with
  | some sc => r.1.add (sc.apply r.2)
  | none => r.1.add r.2

/-- Python-style errors the constructor can raise: `ValueError` from the depth
check, `AttributeError` from `getattr(jax.nn, activation)`. -/
inductive PyError where
  | valueError (msg : String)
  | attributeError (msg : String)

/-- Framework-created parameters of a `WideResNet`: the `init_conv` kernel,
the final `batchnorm` state, the `logits` linear weights and bias, and one
`BlockParams` per (layer, block-in-layer) pair. -/
structure NetParams (Ctx : Type) where
  initConvW : ℕ → ℕ → ℕ → ℕ → ℚ
  bn : BatchNorm Ctx
  linearW : ℕ → ℕ → ℚ
  linearB : ℕ → ℚ
  blockP : ℕ → ℕ → BlockParams Ctx

/-- Model of a constructed `WideResNet`: `init_conv`, the final `batchnorm`,
the `logits` linear layer, the resolved activation, and the nested list
`self._blocks` of blocks grouped by layer. -/
structure WideResNet (Ctx : Type) where
  activation : ℚ → ℚ
  conv : Conv2D
  bn : BatchNorm Ctx
  linear : Linear
  blocks : List (List (WideResNetBlock Ctx))

/-- Module-construction part of `WideResNet.__init__` (model_zoo.py lines
99-135), after validation and activation resolution succeed: the 3×3 stride-1
bias-free 16-channel `init_conv`, the final `batchnorm`, the `logits` linear
layer to num_classes outputs, and blocks_per_layer = (depth - 4) // 6 blocks
(Python range of a negative count is empty, hence `Int.toNat`) for each of
the filter sizes [width * 16, width * 32, width * 64]; block i of layer g has
stride 2 if (g != 0 and i == 0) else 1, and a projection shortcut iff i == 0. -/
def WideResNet.assemble {Ctx : Type} (p : NetParams Ctx) (activation : ℚ → ℚ)
    (num_classes : ℕ) (depth : ℤ) (width : ℕ) : WideResNet Ctx :=
  let blocks_per_layer := ((depth - 4) / 6).toNat
  let filter_sizes := [16, 32, 64].map (fun n => width * n)
  { activation := activation
    conv := { outChannels := 16, kh := 3, kw := 3, stride := 1, weights := p.initConvW }
    bn := p.bn
    linear := { outSize := num_classes, weights := p.linearW, bias := p.linearB }
    blocks := filter_sizes.enum.map (fun lf =>
      (List.range blocks_per_layer).map (fun i =>
        WideResNetBlock.build (p.blockP lf.1 i) lf.2
          (if lf.1 ≠ 0 ∧ i = 0 then 2 else 1) (i == 0) activation)) }

/-- Model of `WideResNet.__init__` (model_zoo.py lines 88-135).  First the
depth check (lines 96-97): `(depth - 4) % 6 != 0` raises
ValueError('depth should be 6n+4.'); Python `%` with positive modulus agrees
with `Int.emod`.  Then `getattr(jax.nn, activation)` (line 98): the external
`jax.nn` module is modelled as a name → function lookup `jaxNN`, and a missing
attribute raises AttributeError.  Then the modules are built (`assemble`). -/
def WideResNet.build {Ctx : Type} (p : NetParams Ctx) (jaxNN : String → Option (ℚ → ℚ))
    (num_classes : ℕ) (depth : ℤ) (width : ℕ) (activation : String) :
    Except PyError (WideResNet Ctx) :=
  if (depth - 4) % 6 ≠ 0 then
    .error (.valueError "depth should be 6n+4.")
  else
    match jaxNN activation with
    | none => .error (.attributeError ("module jax.nn has no attribute " ++ activation))
    | some act => .ok (WideResNet.assemble p act num_classes depth width)

/-- Model of `WideResNet.__call__` (model_zoo.py lines 137-149): initial
convolution, then the nested loop over `self._blocks` applying each block with
the caller's norm context, then the final batch-norm, the activation, the mean
over axes [1, 2], and the linear layer. -/
def WideResNet.call {Ctx : Type} (net : WideResNet Ctx) (ctx : Ctx) (inputs : Tensor4) :
    Tensor2 :=
  let net1 := net.conv.apply inputs
  let net2 := net.blocks.foldl (fun acc layer =>
    layer.foldl (fun a blk => blk.call ctx a) acc) net1
  let net3 := net.bn.apply ctx net2
  let net4 := actApply net.activation net3
  net.linear.apply net4.spatialMean

/-- Constant from model_zoo.py line 24 (exact decimal rationals). -/
def CIFAR10_MEAN : List ℚ := [0.4914, 0.4822, 0.4465]

/-- Constant from model_zoo.py line 25. -/
def CIFAR10_STD : List ℚ := [0.2471, 0.2435, 0.2616]

/-- Constant from model_zoo.py line 26. -/
def CIFAR100_MEAN : List ℚ := [0.5071, 0.4865, 0.4409]

/-- Constant from model_zoo.py line 27. -/
def CIFAR100_STD : List ℚ := [0.2673, 0.2564, 0.2762]

/-- Model of `mnist_normalize` (model_zoo.py lines 152-155): zero-pad the two
spatial axes by 2 on each side (`jnp.pad` with widths ((0,0),(2,2),(2,2),(0,0))
and constant 0), then map pointwise x ↦ (x - 0.5) * 2. -/
def mnist_normalize (image : Tensor4) : Tensor4 :=
  let padded : Tensor4 :=
    { n := image.n
      h := image.h + 4
      w := image.w + 4
      c := image.c
      data := fun b i j ch =>
        if 2 ≤ i ∧ i < image.h + 2 ∧ 2 ≤ j ∧ j < image.w + 2 then
          image.data b (i - 2) (j - 2) ch
        else 0 }
  { padded with data := fun b i j ch => (padded.data b i j ch - 0.5) * 2 }

/-- Model of `cifar10_normalize` (model_zoo.py lines 158-161): the mean and
std 3-vectors broadcast along the channel (last) axis, so entry (b,i,j,c) maps
to (x - mean[c]) / std[c]. -/
def cifar10_normalize (image : Tensor4) : Tensor4 :=
  { image with data := fun b i j ch =>
      (image.data b i j ch - CIFAR10_MEAN.getD ch 0) / CIFAR10_STD.getD ch 1 }

/-- Model of `cifar100_normalize` (model_zoo.py lines 164-167). -/
def cifar100_normalize (image : Tensor4) : Tensor4 :=
  { image with data := fun b i j ch =>
      (image.data b i j ch - CIFAR100_MEAN.getD ch 0) / CIFAR100_STD.getD ch 1 }

/-! Spec-side definitions, written from the specification's words, to be
compared with the definitions translated from the source. -/

/-- Written from the spec's words (section 4.2, forward pass): initial
convolution, then every block of every group in order, then final batch-norm,
then final activation, then the mean over the two spatial axes, then the
linear layer. -/
def WideResNet.forwardSpec {Ctx : Type} (net : WideResNet Ctx) (ctx : Ctx)
    (inputs : Tensor4) : Tensor2 :=
  net.linear.apply
    (actApply net.activation
      (net.bn.apply ctx
        (net.blocks.flatten.foldl (fun a blk => blk.call ctx a)
          (net.conv.apply inputs)))).spatialMean

instance {Ctx : Type} : Inhabited (BatchNorm Ctx) := ⟨⟨fun _ t => t.data⟩⟩

/-- Written from the spec's words (section 4.1, step 3): the tensor added to
the stage-1 output — the projection shortcut applied to the tensor captured
right after stage 0's batch-norm and activation when one exists, the raw
block input otherwise. -/
def shortcutPathSpec {Ctx : Type} (blk : WideResNetBlock Ctx) (ctx : Ctx)
    (inputs : Tensor4) : Tensor4 :=
  match blk.shortcut with
  | some sc => sc.apply (actApply blk.activation (blk.bns.headI.apply ctx inputs))
  | none => inputs

/-- Written from the spec's words (section 4.1, steps 1): the two-stage main
path of a block — batch-norm, activation, 3×3 SAME bias-free convolution with
the block's stride at stage 0 and stride 1 at stage 1. -/
def blockMainPathSpec {Ctx : Type} (p : BlockParams Ctx) (num_filters stride : ℕ)
    (act : ℚ → ℚ) (ctx : Ctx) (x : Tensor4) : Tensor4 :=
  Conv2D.apply { outChannels := num_filters, kh := 3, kw := 3, stride := 1, weights := p.convW 1 }
    (actApply act ((p.bn 1).apply ctx
      (Conv2D.apply
        { outChannels := num_filters, kh := 3, kw := 3, stride := stride, weights := p.convW 0 }
        (actApply act ((p.bn 0).apply ctx x)))))

/-! Concrete instances used to exhibit satisfiability of the hypotheses of the
theorems below. -/

/-- Semantics of `jax.nn.relu` on rationals. -/
def reluQ : ℚ → ℚ := fun x => max x 0

/-- Modelled from the spec: the external `jax.nn` module as a name → function
lookup offering the recognized elementwise nonlinearities (here `relu`); a
name it does not know yields `none` (Python `getattr` raises AttributeError). -/
def dJaxNN : String → Option (ℚ → ℚ) := fun s => if s = "relu" then some reluQ else none

/-- Identity batch-norm state (a valid eval-mode instance). -/
def idBatchNorm : BatchNorm Unit := ⟨fun _ t => t.data⟩

/-- Concrete block parameters with zero kernels and identity batch-norms. -/
def dBlockParams : BlockParams Unit :=
  { bn := fun _ => idBatchNorm
    convW := fun _ _ _ _ _ => 0
    shortcutW := fun _ _ _ _ => 0 }

/-- Concrete network parameters with zero kernels and identity batch-norms. -/
def dNetParams : NetParams Unit :=
  { initConvW := fun _ _ _ _ => 0
    bn := idBatchNorm
    linearW := fun _ _ => 0
    linearB := fun _ => 0
    blockP := fun _ _ => dBlockParams }

/-! Helper lemmas. -/

/-- The fold inside a block's forward pass keeps the batch dimension of its
first component. -/
theorem blockFold_fst_n {Ctx : Type} (act : ℚ → ℚ) (sc : Option Conv2D) (ctx : Ctx) :
    ∀ (l : List (ℕ × (BatchNorm Ctx × Conv2D))) (acc : Tensor4 × Tensor4),
      ((l.foldl (fun acc ibc =>
          let x := ibc.2.1.apply ctx acc.1
          let x := actApply act x
          let origX := if sc.isSome ∧ ibc.1 = 0 then x else acc.2
          (ibc.2.2.apply x, origX)) acc).1).n = acc.1.n := by
  intro l
  induction l with
  | nil => intro acc; rfl
  | cons a l ih => intro acc; rw [List.foldl_cons, ih]; rfl

/-- A block's forward pass preserves the batch dimension. -/
theorem WideResNetBlock.call_n {Ctx : Type} (blk : WideResNetBlock Ctx) (ctx : Ctx)
    (t : Tensor4) : (blk.call ctx t).n = t.n := by
  unfold WideResNetBlock.call
  cases hsc : blk.shortcut with
  | none => exact blockFold_fst_n blk.activation none ctx ((blk.bns.zip blk.convs).enum) (t, t)
  | some sc =>
    exact blockFold_fst_n blk.activation (some sc) ctx ((blk.bns.zip blk.convs).enum) (t, t)

/-- Folding any batch-dimension-preserving step over a list preserves the
batch dimension. -/
theorem foldl_n_invariant {α : Type} (f : Tensor4 → α → Tensor4)
    (hf : ∀ acc a, (f acc a).n = acc.n) :
    ∀ (l : List α) (acc : Tensor4), (l.foldl f acc).n = acc.n := by
  intro l
  induction l with
  | nil => intro acc; rfl
  | cons a l ih => intro acc; rw [List.foldl_cons, ih (f acc a), hf]

/-- Observable configuration of a block as `WideResNet.assemble` builds it for
group index g and within-group index i: both convolutions output the group's
filter count, the first convolution carries stride 2 exactly when 0 < g and
i = 0 (1 otherwise) and the second always stride 1, and the projection
shortcut exists iff i = 0, is 1×1, and matches the block's stride. -/
theorem build_observables {Ctx : Type} (q : BlockParams Ctx) (f : ℚ → ℚ) (fs g i : ℕ) :
    ((WideResNetBlock.build q fs (if g ≠ 0 ∧ i = 0 then 2 else 1) (i == 0) f).convs.map
        Conv2D.outChannels = [fs, fs]) ∧
    ((WideResNetBlock.build q fs (if g ≠ 0 ∧ i = 0 then 2 else 1) (i == 0) f).convs.map
        Conv2D.stride = [if 0 < g ∧ i = 0 then 2 else 1, 1]) ∧
    (((WideResNetBlock.build q fs (if g ≠ 0 ∧ i = 0 then 2 else 1) (i == 0) f).shortcut.isSome
        = true) ↔ i = 0) ∧
    (∀ sc,
      (WideResNetBlock.build q fs (if g ≠ 0 ∧ i = 0 then 2 else 1) (i == 0) f).shortcut
          = some sc →
      sc.outChannels = fs ∧ sc.stride = (if 0 < g ∧ i = 0 then 2 else 1) ∧
        sc.kh = 1 ∧ sc.kw = 1) := by
  by_cases hi0 : i = 0 <;> by_cases hg0 : g = 0 <;>
    simp [WideResNetBlock.build, hi0, hg0, List.range_succ, Nat.pos_iff_ne_zero]

/-! Claim theorems. -/

/-- C1: constructing a `WideResNet` raises ValueError iff (depth - 4) mod 6 is
nonzero; depth 27 fails; for every depth with (depth - 4) % 6 = 0 the depth
check passes and construction proceeds to activation resolution and module
assembly. -/
theorem depth_validation {Ctx : Type} (p : NetParams Ctx) (jaxNN : String → Option (ℚ → ℚ))
    (nc : ℕ) (depth : ℤ) (w : ℕ) (a : String) :
    ((∃ msg, WideResNet.build p jaxNN nc depth w a = .error (.valueError msg)) ↔
      (depth - 4) % 6 ≠ 0) ∧
    (∃ msg, WideResNet.build dNetParams dJaxNN 10 27 10 "relu" = .error (.valueError msg)) ∧
    ((depth - 4) % 6 = 0 →
      WideResNet.build p jaxNN nc depth w a =
        (match jaxNN a with
         | none => .error (.attributeError ("module jax.nn has no attribute " ++ a))
         | some act => .ok (WideResNet.assemble p act nc depth w))) := by
  refine ⟨⟨?_, ?_⟩, ⟨"depth should be 6n+4.", rfl⟩, ?_⟩
  · rintro ⟨msg, hmsg⟩
    by_contra h
    unfold WideResNet.build at hmsg
    rw [if_neg (not_not_intro h)] at hmsg
    cases hj : jaxNN a <;> rw [hj] at hmsg <;> simp at hmsg
  · intro h
    exact ⟨"depth should be 6n+4.", by unfold WideResNet.build; rw [if_pos h]⟩
  · intro h
    unfold WideResNet.build
    rw [if_neg (not_not_intro h)]

/-- C1 witness: depth 27 raises ValueError, depth 28 constructs. -/
theorem depth_validation_witness :
    (∃ msg, WideResNet.build dNetParams dJaxNN 10 27 10 "relu" =
      .error (.valueError msg)) ∧
    WideResNet.build dNetParams dJaxNN 10 28 10 "relu" =
      .ok (WideResNet.assemble dNetParams reluQ 10 28 10) := by
  refine ⟨(depth_validation dNetParams dJaxNN 10 27 10 "relu").1.mpr (by decide), ?_⟩
  exact ((depth_validation dNetParams dJaxNN 10 28 10 "relu").2.2 (by decide)).trans rfl

/-- C2: the forward pass equals the spec's sequential composition (initial
convolution, every block of every group in order, final batch-norm, final
activation, mean over the two spatial axes, linear layer), it preserves the
batch dimension, and its feature dimension is the linear layer's output size,
which `assemble` sets to num_classes; hence the output shape is
(N, num_classes). -/
theorem forward_composition {Ctx : Type} (net : WideResNet Ctx) (ctx : Ctx) (x : Tensor4)
    (p : NetParams Ctx) (f : ℚ → ℚ) (nc : ℕ) (depth : ℤ) (w : ℕ) :
    net.call ctx x = net.forwardSpec ctx x ∧
    (net.call ctx x).n = x.n ∧
    (net.call ctx x).c = net.linear.outSize ∧
    ((WideResNet.assemble p f nc depth w).call ctx x).c = nc := by
  refine ⟨?_, ?_, rfl, rfl⟩
  · unfold WideResNet.call WideResNet.forwardSpec
    rw [List.foldl_flatten]
  · show (net.blocks.foldl (fun acc layer =>
        layer.foldl (fun a blk => blk.call ctx a) acc) (net.conv.apply x)).n = x.n
    exact foldl_n_invariant (fun acc layer => layer.foldl (fun a blk => blk.call ctx a) acc)
      (fun acc layer => foldl_n_invariant (fun a blk => blk.call ctx a)
        (fun a blk => blk.call_n ctx a) layer acc)
      net.blocks (net.conv.apply x)

/-- C3 counterexample: depth = -2 passes validation ((-2 - 4) % 6 = 0 under
Python semantics) and constructs, but every group then holds 0 blocks while
(depth - 4) / 6 = -1, so a group does not hold exactly (depth - 4) / 6
blocks. -/
theorem blocks_per_group_counterexample :
    ((-2 - 4 : ℤ) % 6 = 0) ∧
    WideResNet.build dNetParams dJaxNN 10 (-2) 1 "relu" =
      .ok (WideResNet.assemble dNetParams reluQ 10 (-2) 1) ∧
    ¬ (∀ grp ∈ (WideResNet.assemble dNetParams reluQ 10 (-2) 1).blocks,
        (grp.length : ℤ) = ((-2 : ℤ) - 4) / 6) := by
  refine ⟨by decide, rfl, fun h => ?_⟩
  exact absurd (h [] (List.mem_cons_self [] [[], []])) (by decide)

/-- C3 (amended): the constructed network has exactly 3 layer-groups; each
holds max(0, (depth - 4) / 6) blocks; every convolution of block i of group g
outputs width·[16, 32, 64][g] channels; the block's first convolution has
stride 2 iff (g > 0 and i = 0) and the second stride 1; a projection shortcut
exists iff i = 0 and then matches the block's stride and filter count; depth
28 gives 4 blocks per group, 12 in total. -/
theorem network_topology {Ctx : Type} (p : NetParams Ctx) (f : ℚ → ℚ) (nc : ℕ)
    (depth : ℤ) (w : ℕ) :
    (WideResNet.assemble p f nc depth w).blocks.map List.length =
      [((depth - 4) / 6).toNat, ((depth - 4) / 6).toNat, ((depth - 4) / 6).toNat] ∧
    (∀ g grp, (WideResNet.assemble p f nc depth w).blocks[g]? = some grp →
      ∀ i blk, grp[i]? = some blk →
        blk.convs.map Conv2D.outChannels =
          [w * [16, 32, 64].getD g 0, w * [16, 32, 64].getD g 0] ∧
        blk.convs.map Conv2D.stride = [if 0 < g ∧ i = 0 then 2 else 1, 1] ∧
        (blk.shortcut.isSome = true ↔ i = 0) ∧
        (∀ sc, blk.shortcut = some sc →
          sc.outChannels = w * [16, 32, 64].getD g 0 ∧
          sc.stride = (if 0 < g ∧ i = 0 then 2 else 1) ∧ sc.kh = 1 ∧ sc.kw = 1)) ∧
    (depth = 28 →
      (WideResNet.assemble p f nc depth w).blocks.map List.length = [4, 4, 4] ∧
      ((WideResNet.assemble p f nc depth w).blocks.map List.length).sum = 12) := by
  have hmap : (WideResNet.assemble p f nc depth w).blocks.map List.length =
      [((depth - 4) / 6).toNat, ((depth - 4) / 6).toNat, ((depth - 4) / 6).toNat] := by
    unfold WideResNet.assemble
    simp [List.enum, List.enumFrom]
  refine ⟨hmap, ?_, fun h28 => ⟨by rw [hmap, h28]; rfl, by rw [hmap, h28]; rfl⟩⟩
  intro g grp hg i blk hb
  unfold WideResNet.assemble at hg
  simp only [List.map_cons, List.map_nil, List.enum, List.enumFrom] at hg
  have hblk : ∀ (fs L : ℕ),
      ((List.range ((depth - 4) / 6).toNat).map (fun i =>
        WideResNetBlock.build (p.blockP L i) fs (if L ≠ 0 ∧ i = 0 then 2 else 1) (i == 0) f))[i]?
        = some blk →
      blk = WideResNetBlock.build (p.blockP L i) fs (if L ≠ 0 ∧ i = 0 then 2 else 1) (i == 0) f := by
    intro fs L h
    rw [List.getElem?_map] at h
    have hi : i < ((depth - 4) / 6).toNat := by
      by_contra hge
      rw [List.getElem?_len_le (by simpa using Nat.le_of_not_lt hge)] at h
      simp at h
    rw [List.getElem?_range hi] at h
    simp only [Option.map_some'] at h
    injection h with h
    exact h.symm
  rcases g with _ | _ | _ | g4
  · simp only [List.getElem?_cons_zero, Option.some.injEq] at hg
    subst hg
    have hbe := hblk (w * 16) 0 hb
    subst hbe
    exact build_observables (p.blockP 0 i) f (w * 16) 0 i
  · simp only [List.getElem?_cons_succ, List.getElem?_cons_zero, Option.some.injEq] at hg
    subst hg
    have hbe := hblk (w * 32) (0 + 1) hb
    subst hbe
    exact build_observables (p.blockP (0 + 1) i) f (w * 32) (0 + 1) i
  · simp only [List.getElem?_cons_succ, List.getElem?_cons_zero, Option.some.injEq] at hg
    subst hg
    have hbe := hblk (w * 64) (0 + 1 + 1) hb
    subst hbe
    exact build_observables (p.blockP (0 + 1 + 1) i) f (w * 64) (0 + 1 + 1) i
  · simp at hg

/-- C3 witness: at depth 28, width 1, the groups hold [4, 4, 4] blocks and the
first block of group 1 has stride [2, 1] across its two convolutions. -/
theorem network_topology_witness :
    (WideResNet.assemble dNetParams reluQ 10 28 1).blocks.map List.length = [4, 4, 4] ∧
    (WideResNetBlock.build (dNetParams.blockP 1 0) 32 2 true reluQ).convs.map
      Conv2D.stride = [2, 1] := by
  have h := network_topology dNetParams reluQ 10 28 1
  refine ⟨(h.2.2 rfl).1, ?_⟩
  have h2 := h.2.1 1 _ rfl 0 _ rfl
  simpa using h2.2.1

/-- C4: a block's forward pass is two stages — batch-norm with the caller's
context, activation, then a 3×3 SAME bias-free convolution with the block's
stride at stage 0 and stride 1 at stage 1 — and the stage-1 output summed
with the shortcut path. -/
theorem block_two_stage_forward {Ctx : Type} (p : BlockParams Ctx)
    (num_filters stride : ℕ) (projection_shortcut : Bool) (act : ℚ → ℚ)
    (ctx : Ctx) (x : Tensor4) :
    (WideResNetBlock.build p num_filters stride projection_shortcut act).call ctx x =
      (blockMainPathSpec p num_filters stride act ctx x).add
        (shortcutPathSpec
          (WideResNetBlock.build p num_filters stride projection_shortcut act) ctx x) := by
  cases projection_shortcut <;> rfl

/-- C5: with a projection shortcut the tensor added to the stage-1 output is
the 1×1 stride-matching bias-free shortcut convolution of the tensor captured
right after stage 0's batch-norm and activation; without one, the raw block
input itself is added. -/
theorem block_shortcut_selection {Ctx : Type} (p : BlockParams Ctx)
    (num_filters stride : ℕ) (act : ℚ → ℚ) (ctx : Ctx) (x : Tensor4) :
    ((WideResNetBlock.build p num_filters stride true act).call ctx x =
      (blockMainPathSpec p num_filters stride act ctx x).add
        (Conv2D.apply
          { outChannels := num_filters, kh := 1, kw := 1, stride := stride,
            weights := p.shortcutW }
          (actApply act ((p.bn 0).apply ctx x)))) ∧
    ((WideResNetBlock.build p num_filters stride false act).call ctx x =
      (blockMainPathSpec p num_filters stride act ctx x).add x) :=
  ⟨rfl, rfl⟩

/-- C6: cifar10_normalize and cifar100_normalize keep all dimensions and are
the exact per-channel affine maps (x - mean[c]) / std[c] with the literal
constant tuples from the source. -/
theorem cifar_normalize_affine (img : Tensor4) (b i j : ℕ) :
    (cifar10_normalize img).n = img.n ∧ (cifar10_normalize img).h = img.h ∧
    (cifar10_normalize img).w = img.w ∧ (cifar10_normalize img).c = img.c ∧
    (cifar10_normalize img).data b i j 0 = (img.data b i j 0 - 0.4914) / 0.2471 ∧
    (cifar10_normalize img).data b i j 1 = (img.data b i j 1 - 0.4822) / 0.2435 ∧
    (cifar10_normalize img).data b i j 2 = (img.data b i j 2 - 0.4465) / 0.2616 ∧
    (cifar100_normalize img).n = img.n ∧ (cifar100_normalize img).h = img.h ∧
    (cifar100_normalize img).w = img.w ∧ (cifar100_normalize img).c = img.c ∧
    (cifar100_normalize img).data b i j 0 = (img.data b i j 0 - 0.5071) / 0.2673 ∧
    (cifar100_normalize img).data b i j 1 = (img.data b i j 1 - 0.4865) / 0.2564 ∧
    (cifar100_normalize img).data b i j 2 = (img.data b i j 2 - 0.4409) / 0.2762 :=
  ⟨rfl, rfl, rfl, rfl, rfl, rfl, rfl, rfl, rfl, rfl, rfl, rfl, rfl, rfl⟩

/-- C7: mnist_normalize grows the two spatial axes by 2 on each side, its
entries are ((zero-padded entry) - 0.5) * 2, and on an all-zero batch of
per-sample shape (28, 28, 1) it returns the all -1 tensor of spatial shape
(32, 32). -/
theorem mnist_normalize_pad_scale (img : Tensor4) (b i j ch n b2 i2 j2 c2 : ℕ) :
    (mnist_normalize img).n = img.n ∧
    (mnist_normalize img).h = img.h + 4 ∧
    (mnist_normalize img).w = img.w + 4 ∧
    (mnist_normalize img).c = img.c ∧
    (mnist_normalize img).data b i j ch =
      ((if 2 ≤ i ∧ i < img.h + 2 ∧ 2 ≤ j ∧ j < img.w + 2 then
          img.data b (i - 2) (j - 2) ch else 0) - 0.5) * 2 ∧
    (mnist_normalize (Tensor4.mk n 28 28 1 (fun _ _ _ _ => 0))).h = 32 ∧
    (mnist_normalize (Tensor4.mk n 28 28 1 (fun _ _ _ _ => 0))).w = 32 ∧
    (mnist_normalize (Tensor4.mk n 28 28 1 (fun _ _ _ _ => 0))).data b2 i2 j2 c2 = -1 := by
  refine ⟨rfl, rfl, rfl, rfl, rfl, rfl, rfl, ?_⟩
  show ((if 2 ≤ i2 ∧ i2 < 28 + 2 ∧ 2 ≤ j2 ∧ j2 < 28 + 2 then (0 : ℚ) else 0) - 0.5) * 2 = -1
  rw [ite_self]
  norm_num

/-- C8: construction fails with a lookup error (AttributeError) iff the depth
check passes and the activation name is not recognized by jax.nn; when the
name resolves to f, the constructed network uses f as every block's
activation and as the final activation. -/
theorem activation_resolution {Ctx : Type} (p : NetParams Ctx)
    (jaxNN : String → Option (ℚ → ℚ)) (nc : ℕ) (depth : ℤ) (w : ℕ) (a : String) :
    ((∃ msg, WideResNet.build p jaxNN nc depth w a = .error (.attributeError msg)) ↔
      ((depth - 4) % 6 = 0 ∧ jaxNN a = none)) ∧
    (∀ f, jaxNN a = some f → ∀ net, WideResNet.build p jaxNN nc depth w a = .ok net →
      net.activation = f ∧ ∀ grp ∈ net.blocks, ∀ blk ∈ grp, blk.activation = f) := by
  constructor
  · constructor
    · rintro ⟨msg, hmsg⟩
      unfold WideResNet.build at hmsg
      by_cases h : (depth - 4) % 6 = 0
      · rw [if_neg (not_not_intro h)] at hmsg
        cases hj : jaxNN a with
        | none => exact ⟨h, rfl⟩
        | some f => rw [hj] at hmsg; simp at hmsg
      · rw [if_pos h] at hmsg
        simp at hmsg
    · rintro ⟨h1, h2⟩
      refine ⟨"module jax.nn has no attribute " ++ a, ?_⟩
      unfold WideResNet.build
      rw [if_neg (not_not_intro h1), h2]
  · intro f hf net hnet
    unfold WideResNet.build at hnet
    by_cases h : (depth - 4) % 6 = 0
    · rw [if_neg (not_not_intro h), hf] at hnet
      simp only [Except.ok.injEq] at hnet
      subst hnet
      refine ⟨rfl, ?_⟩
      intro grp hgrp blk hblk
      unfold WideResNet.assemble at hgrp
      simp only [List.mem_map] at hgrp
      obtain ⟨lf, hlf, rfl⟩ := hgrp
      simp only [List.mem_map] at hblk
      obtain ⟨i, hi, rfl⟩ := hblk
      rfl
    · rw [if_pos h] at hnet
      simp at hnet

/-- C8 witness: the unrecognized name "selu" fails with AttributeError at a
valid depth, and "relu" resolves to reluQ as the network's activation. -/
theorem activation_resolution_witness :
    (∃ msg, WideResNet.build dNetParams dJaxNN 10 28 10 "selu" =
      .error (.attributeError msg)) ∧
    (WideResNet.build dNetParams dJaxNN 10 10 1 "relu").toOption.map
      (fun net => net.activation) = some reluQ := by
  constructor
  · exact (activation_resolution dNetParams dJaxNN 10 28 10 "selu").1.mpr ⟨by decide, rfl⟩
  · cases hm : WideResNet.build dNetParams dJaxNN 10 10 1 "relu" with
    | error e =>
      have hok : WideResNet.build dNetParams dJaxNN 10 10 1 "relu" =
        .ok (WideResNet.assemble dNetParams reluQ 10 10 1) := rfl
      rw [hok] at hm
      cases hm
    | ok net =>
      have h2 := ((activation_resolution dNetParams dJaxNN 10 10 1 "relu").2
        reluQ rfl net hm).1
      simp [Except.toOption, h2]

/-- C9: the mean over the two spatial axes of a feature map that is constant
across spatial positions returns that constant for each batch element and
channel, for every positive spatial height and width. -/
theorem global_average_pool_const (n h w c : ℕ) (g : ℕ → ℕ → ℚ) (hh : 0 < h)
    (hw : 0 < w) (b ch : ℕ) :
    (Tensor4.mk n h w c (fun b _ _ ch => g b ch)).spatialMean.data b ch = g b ch := by
  have hne : ((h * w : ℕ) : ℚ) ≠ 0 :=
    Nat.cast_ne_zero.mpr (Nat.mul_ne_zero hh.ne' hw.ne')
  simp [Tensor4.spatialMean, Finset.sum_const, Finset.card_range, mul_comm]
  field_simp
  ring

/-- C9 witness: a constant 5 feature map with spatial size 2 × 3 pools to 5. -/
theorem global_average_pool_const_witness :
    0 < 2 ∧ 0 < 3 ∧
    (Tensor4.mk 1 2 3 1 (fun _ _ _ _ => (5 : ℚ))).spatialMean.data 0 0 = 5 :=
  ⟨by decide, by decide,
    global_average_pool_const 1 2 3 1 (fun _ _ => 5) (by decide) (by decide) 0 0⟩

/-- C10: every depth congruent to 4 mod 6 (Python modulo, so also e.g. -2)
passes validation and constructs; for such depths at most 4, all three groups
are empty and the forward pass is just initial convolution, final batch-norm,
activation, global average pooling, and the linear layer. -/
theorem degenerate_depth_construction {Ctx : Type} (p : NetParams Ctx)
    (jaxNN : String → Option (ℚ → ℚ)) (nc w : ℕ) (a : String) (f : ℚ → ℚ)
    (hf : jaxNN a = some f) :
    (∀ depth : ℤ, (depth - 4) % 6 = 0 →
      WideResNet.build p jaxNN nc depth w a = .ok (WideResNet.assemble p f nc depth w)) ∧
    (∀ depth : ℤ, depth ≤ 4 → (depth - 4) % 6 = 0 →
      (WideResNet.assemble p f nc depth w).blocks = [[], [], []] ∧
      ∀ (ctx : Ctx) (x : Tensor4),
        (WideResNet.assemble p f nc depth w).call ctx x =
          (Linear.mk nc p.linearW p.linearB).apply
            (actApply f
              (p.bn.apply ctx
                ((Conv2D.mk 16 3 3 1 p.initConvW).apply x))).spatialMean) := by
  constructor
  · intro depth h
    unfold WideResNet.build
    rw [if_neg (not_not_intro h), hf]
  · intro depth hd h
    have hz : ((depth - 4) / 6).toNat = 0 := by omega
    have hb : (WideResNet.assemble p f nc depth w).blocks = [[], [], []] := by
      unfold WideResNet.assemble
      rw [hz]
      rfl
    refine ⟨hb, ?_⟩
    intro ctx x
    unfold WideResNet.call
    rw [hb]
    rfl

/-- C10 witness: depth -2 (congruent to 4 mod 6) constructs with empty
groups, as does depth 4. -/
theorem degenerate_depth_construction_witness :
    WideResNet.build dNetParams dJaxNN 10 (-2) 1 "relu" =
      .ok (WideResNet.assemble dNetParams reluQ 10 (-2) 1) ∧
    (WideResNet.assemble dNetParams reluQ 10 (-2) 1).blocks = [[], [], []] ∧
    (WideResNet.assemble dNetParams reluQ 10 4 1).blocks = [[], [], []] := by
  have h := degenerate_depth_construction dNetParams dJaxNN 10 1 "relu" reluQ rfl
  exact ⟨h.1 (-2) (by decide), (h.2 (-2) (by decide) (by decide)).1,
    (h.2 4 (by decide) (by decide)).1⟩
